import Mathlib

/-!
# A shallow embedding of `django_conditions.conditions`

The repository's core file `src/django_conditions/conditions.py` defines a
guard-chain evaluator:

* `class Conditions(list)` — an ordered sequence of guard predicates, each a
  Python callable of `(instance, user)` that returns normally on success and
  raises `ConditionFailed` (or some other exception) on failure;
* `Conditions.__add__` — concatenation, building a fresh `Conditions` from
  `super().__add__(other)`;
* `Conditions.__get__` — the descriptor protocol: `if instance:` return a
  `BoundConditions(self, instance)`, otherwise return `self` (note: Python
  truthiness of `instance`, not an `is not None` test);
* `Conditions.__call__` — `for func in self: func(instance, user)`, so the
  first raised exception aborts the loop and propagates;
* `Conditions.as_bool` — calls `self(instance, user)`, catches exactly
  `ConditionFailed` and turns it into `False`, returns `True` otherwise;
* `class BoundConditions` — pairs a `Conditions` with one instance and
  forwards `__call__` and `as_bool` with that instance pre-applied.

Python exceptions are embedded as an `Except` value: a guard is a function
into `Except PyExc Unit`, where `PyExc.conditionFailed r` stands for a raised
`ConditionFailed` with reason `r` and `PyExc.other m` stands for any other
raised exception.  Mutation of a chain is embedded by giving, for each public
operation, the post-state of the `self` object (for the operations the class
defines this equals the pre-state; for the in-place mutators inherited from
Python `list`, such as `append` and `+=`, it does not).
-/

namespace DjangoConditions

/-- A Python exception as `Conditions` evaluation can observe it:
either the library's `ConditionFailed` (with its reason) or any other
exception. -/
inductive PyExc where
  | conditionFailed (reason : String)
  | other (msg : String)
deriving DecidableEq, Repr

/-- A guard predicate: a Python callable of `(instance, user)` that either
returns (success) or raises (`Except.error`). -/
def Guard (I A : Type) : Type := I → A → Except PyExc Unit

/-- Embeds `class Conditions(list)`: the chain is exactly its underlying list of
guard callables. -/
structure Conditions (I A : Type) where
  funcs : List (Guard I A)

/-- Embeds `class BoundConditions`: a chain paired with one concrete instance
(`__init__` stores both). -/
structure BoundConditions (I A : Type) where
  conditions : Conditions I A
  inst : I

/-- The loop body of `Conditions.__call__`:
`for func in self: func(instance, user)` — each callable runs in order and
the first raised exception propagates. -/
def callList {I A : Type} (fs : List (Guard I A)) (i : I) (u : A) :
    Except PyExc Unit :=
  match fs with
  | [] => Except.ok ()
  | f :: rest =>
    match f i u with
    | Except.ok _ => callList rest i u
    | Except.error e => Except.error e

/-- Embeds `Conditions.__call__(self, instance, user)`. -/
def Conditions.call {I A : Type} (c : Conditions I A) (i : I) (u : A) :
    Except PyExc Unit :=
  callList c.funcs i u

/-- Embeds `Conditions.as_bool(self, instance, user)`:
`try: self(instance, user); except ConditionFailed: return False; return True`.
Only `ConditionFailed` is caught; any other exception propagates. -/
def Conditions.as_bool {I A : Type} (c : Conditions I A) (i : I) (u : A) :
    Except PyExc Bool :=
  match c.call i u with
  | Except.ok _ => Except.ok true
  | Except.error (PyExc.conditionFailed _) => Except.ok false
  | Except.error (PyExc.other m) => Except.error (PyExc.other m)

/-- Embeds `Conditions.__add__(self, other)`: `Conditions(super().__add__(other))` —
a fresh chain holding the concatenated list.  As in the source, `other` is
any list of guards, not necessarily a `Conditions`. -/
def Conditions.add {I A : Type} (c : Conditions I A) (other : List (Guard I A)) :
    Conditions I A :=
  ⟨c.funcs ++ other⟩

/-- Embeds `Conditions.__get__(self, instance, cls)`.  The descriptor protocol hands
`instance = None` for access on the class, embedded as `none`; the source
branches on `if instance:` — Python truthiness of the instance (`None` is
falsy), supplied here as the parameter `truthy`.  `Sum.inl` is the unbound
chain (`return self`), `Sum.inr` the bound one. -/
def Conditions.get {I A : Type} (c : Conditions I A) (truthy : I → Bool)
    (obj : Option I) : Conditions I A ⊕ BoundConditions I A :=
  match obj with
  | none => Sum.inl c
  | some i => if truthy i then Sum.inr ⟨c, i⟩ else Sum.inl c

/-- Embeds `BoundConditions.__call__(self, user)`:
`self.conditions(self.instance, user)`. -/
def BoundConditions.call {I A : Type} (b : BoundConditions I A) (u : A) :
    Except PyExc Unit :=
  b.conditions.call b.inst u

/-- Embeds `BoundConditions.as_bool(self, user)`:
`self.conditions.as_bool(self.instance, user)`. -/
def BoundConditions.as_bool {I A : Type} (b : BoundConditions I A) (u : A) :
    Except PyExc Bool :=
  b.conditions.as_bool b.inst u

/-- Post-state of `self` after `self + other`: `list.__add__` reads `self`
and builds a new list, so `self` is untouched. -/
def Conditions.selfAfterAdd {I A : Type} (c : Conditions I A)
    (_other : List (Guard I A)) : Conditions I A :=
  c

/-- Post-state of `self` after `self(instance, user)`: the loop only reads
the list. -/
def Conditions.selfAfterCall {I A : Type} (c : Conditions I A) (_i : I)
    (_u : A) : Conditions I A :=
  c

/-- Post-state of `self` after `self.as_bool(instance, user)`: only reads. -/
def Conditions.selfAfterAsBool {I A : Type} (c : Conditions I A) (_i : I)
    (_u : A) : Conditions I A :=
  c

/-- Post-state of `self` after descriptor access `self.__get__`: the branch
only reads `self`. -/
def Conditions.selfAfterGet {I A : Type} (c : Conditions I A)
    (_truthy : I → Bool) (_obj : Option I) : Conditions I A :=
  c

/-- Post-state of the right operand after `self + other`: `list.__add__`
only reads it. -/
def Conditions.argAfterAdd {I A : Type} (_c : Conditions I A)
    (other : List (Guard I A)) : List (Guard I A) :=
  other

/-- Because `Conditions` subclasses Python `list`, the in-place mutator
`list.append` is part of the chain's public interface; this is the post-state
of the chain after `self.append(g)`: the sequence has grown by one. -/
def Conditions.listAppend {I A : Type} (c : Conditions I A) (g : Guard I A) :
    Conditions I A :=
  ⟨c.funcs ++ [g]⟩

/-- Because `Conditions` inherits `list.__iadd__`, the statement
`self += other` mutates `self` in place (the class defines `__add__` but not
`__iadd__`); this is the post-state of `self` after `self += other`. -/
def Conditions.listIadd {I A : Type} (c : Conditions I A)
    (other : List (Guard I A)) : Conditions I A :=
  ⟨c.funcs ++ other⟩

/-- A trivially passing guard, used as a concrete input in witnesses. -/
def passGuard : Guard Nat Nat := fun _ _ => Except.ok ()

/-- A guard that always raises `ConditionFailed "denied"`. -/
def failGuard : Guard Nat Nat := fun _ _ =>
  Except.error (PyExc.conditionFailed "denied")

/-- A guard that always raises `ConditionFailed "later"`. -/
def laterFailGuard : Guard Nat Nat := fun _ _ =>
  Except.error (PyExc.conditionFailed "later")

/-- A guard that raises a non-`ConditionFailed` exception. -/
def boomGuard : Guard Nat Nat := fun _ _ => Except.error (PyExc.other "boom")

/-- Python truthiness of an int: `bool(n)` is `False` exactly for `0`. -/
def natTruthy : Nat → Bool := fun n => n != 0

end DjangoConditions

namespace FsmSpec

open DjangoConditions

/-- Modelled from the spec: the error taxonomy of §7 for the transition
engine (the `fsm` module `django_conditions.fsm` / `django_state_manager.fsm`
is referenced by the repository's tests but its code is not under `src/`). -/
inductive FsmError where
  | invalidTransition
  | permissionDenied
  | conditionFailed (reason : String)
  | guardRaised (msg : String)
  | actionFailed (msg : String)
  | protectedWriteForbidden
deriving DecidableEq, Repr

/-- Modelled from the spec: a Transition Descriptor (§3): acceptable source
states, target state, attached Condition Chain, optional permission check
(already resolved against the external authorization collaborator of §6),
the action, and the optional error-target state (`on_error`).  The `fsm`
module defining `transition` is not under `src/`. -/
structure Descr (S I A : Type) where
  source : List S
  target : S
  conditions : Conditions I A
  permission : Option (I → A → Bool)
  action : I → Except String Unit
  onError : Option S

/-- Modelled from the spec: the Permission Gate (§4.4) — if no permission
identifier is declared the gate is skipped (always passes), otherwise it
delegates to the authorization collaborator. -/
def permGate {S I A : Type} (d : Descr S I A) (inst : I) (actor : A) : Bool :=
  match d.permission with
  | none => true
  | some p => p inst actor

/-- Modelled from the spec: `attempt` (§4.2 steps 1–6); the `fsm` module
implementing it is not under `src/`.  The pair is (report to the caller,
stored state after the call): source-state lookup, then permission, then the
Condition Chain, then the action; on action failure with a declared
error-target the state moves there and the failure is still re-signalled,
otherwise state is unchanged on every failure path. -/
def Descr.attempt {S I A : Type} [DecidableEq S] (d : Descr S I A) (inst : I)
    (actor : A) (st : S) : Except FsmError Unit × S :=
  if st ∈ d.source then
    if permGate d inst actor then
      match d.conditions.call inst actor with
      | Except.error (PyExc.conditionFailed r) =>
          (Except.error (FsmError.conditionFailed r), st)
      | Except.error (PyExc.other m) =>
          (Except.error (FsmError.guardRaised m), st)
      | Except.ok _ =>
        match d.action inst with
        | Except.ok _ => (Except.ok (), d.target)
        | Except.error m =>
          match d.onError with
          | some es => (Except.error (FsmError.actionFailed m), es)
          | none => (Except.error (FsmError.actionFailed m), st)
    else (Except.error FsmError.permissionDenied, st)
  else (Except.error FsmError.invalidTransition, st)

/-- Modelled from the spec: a protected-capable storage slot (§4.3, §6) —
the field's stored state value together with the field's `protected` flag.
The `FSMField` code enforcing this is not under `src/`. -/
structure Slot (S : Type) where
  prot : Bool
  value : S

/-- Modelled from the spec: reading the current value is always permitted
(§4.3). -/
def Slot.read {S : Type} (s : Slot S) : S := s.value

/-- Modelled from the spec: a direct write to the slot outside of `attempt`
(§4.3, §7) — forbidden when the field is protected, with the stored value
unchanged; permitted otherwise.  The pair is (report, slot after the
write). -/
def Slot.directWrite {S : Type} (s : Slot S) (v : S) :
    Except FsmError Unit × Slot S :=
  if s.prot then (Except.error FsmError.protectedWriteForbidden, s)
  else (Except.ok (), { s with value := v })

/-- Modelled from the spec: a transition attempt against the slot; the
engine's own internal state-assignment step bypasses the protected-write
guard (§4.3: only writes *other than* through `attempt` must fail). -/
def Slot.attempt {S I A : Type} [DecidableEq S] (d : Descr S I A) (inst : I)
    (actor : A) (s : Slot S) : Except FsmError Unit × Slot S :=
  let r := Descr.attempt d inst actor s.value
  (r.1, { s with value := r.2 })

/-- A concrete descriptor used in witnesses: `publish` from source `new` to
target `published`, no guards, no permission, action succeeds. -/
def pubDescr : Descr String Unit Unit :=
  { source := ["new"], target := "published", conditions := ⟨[]⟩,
    permission := none, action := fun _ => Except.ok (), onError := none }

/-- A concrete protected slot holding `new`, used in witnesses. -/
def pubSlot : Slot String := ⟨true, "new"⟩

/-- A concrete descriptor whose action raises and which declares the
error-target state `failed`, used in witnesses. -/
def failDescr : Descr String Unit Unit :=
  { source := ["new"], target := "published", conditions := ⟨[]⟩,
    permission := none, action := fun _ => Except.error "fault",
    onError := some "failed" }

end FsmSpec

/-!
## Theorems

The claims below are settled against the embedding above.  Helper lemmas
come first; each claim has exactly one theorem.
-/

namespace DjangoConditions

/-- Helper: a chain whose guards all pass on `(i, u)` evaluates to success. -/
theorem callList_ok_of_all {I A : Type} (i : I) (u : A) :
    ∀ fs : List (Guard I A), (∀ g ∈ fs, g i u = Except.ok ()) →
      callList fs i u = Except.ok () := by
  intro fs
  induction fs with
  | nil => intro _; rfl
  | cons f rest ih =>
    intro h
    have hf : f i u = Except.ok () := h f (List.mem_cons_self f rest)
    have hstep : callList (f :: rest) i u = callList rest i u := by
      simp [callList, hf]
    rw [hstep]
    exact ih fun g hg => h g (List.mem_cons_of_mem f hg)

/-- Helper: a passing prefix of the chain does not affect the result of the
rest of the chain. -/
theorem callList_append_of_all_ok {I A : Type} (i : I) (u : A) :
    ∀ pre : List (Guard I A), (∀ g ∈ pre, g i u = Except.ok ()) →
      ∀ rest : List (Guard I A),
        callList (pre ++ rest) i u = callList rest i u := by
  intro pre
  induction pre with
  | nil => intro _ rest; rfl
  | cons f pre ih =>
    intro h rest
    have hf : f i u = Except.ok () := h f (List.mem_cons_self f pre)
    have hstep : callList ((f :: pre) ++ rest) i u = callList (pre ++ rest) i u := by
      simp [callList, hf]
    rw [hstep]
    exact ih (fun g hg => h g (List.mem_cons_of_mem f hg)) rest

/-- C1: calling a chain evaluates its guards in declaration order and stops
at the first failing one, propagating exactly that guard's exception; the
guards after the first failing one are never evaluated (the result does not
depend on `post` at all, which is universally quantified), and a chain whose
guards all pass reports success. -/
theorem conditions_call_short_circuit {I A : Type} (i : I) (u : A)
    (pre post : List (Guard I A)) (f : Guard I A) (e : PyExc)
    (hpre : ∀ g ∈ pre, g i u = Except.ok ())
    (hf : f i u = Except.error e) :
    (Conditions.mk (pre ++ f :: post)).call i u = Except.error e
    ∧ ∀ fs : List (Guard I A), (∀ g ∈ fs, g i u = Except.ok ()) →
        (Conditions.mk fs).call i u = Except.ok () := by
  constructor
  · show callList (pre ++ f :: post) i u = Except.error e
    rw [callList_append_of_all_ok i u pre hpre (f :: post)]
    simp [callList, hf]
  · intro fs h
    exact callList_ok_of_all i u fs h

/-- C1 witness: a chain `[pass] ++ fail :: [laterFail, boom]` stops at the
first failing guard with its reason `denied`, never reaching the later
failing guards. -/
theorem conditions_call_short_circuit_witness :
    (Conditions.mk ([passGuard] ++ failGuard :: [laterFailGuard, boomGuard])).call 0 0
      = Except.error (PyExc.conditionFailed "denied")
    ∧ ∀ fs : List (Guard Nat Nat), (∀ g ∈ fs, g 0 0 = Except.ok ()) →
        (Conditions.mk fs).call 0 0 = Except.ok () :=
  conditions_call_short_circuit 0 0 [passGuard] [laterFailGuard, boomGuard]
    failGuard (PyExc.conditionFailed "denied")
    (by
      intro g hg
      rw [List.mem_singleton] at hg
      subst hg
      rfl)
    rfl

/-- C2: concatenation with `+` yields a chain whose predicate sequence is
exactly the first operand's sequence followed by the second's, and neither
operand is mutated (`list.__add__` only reads both; `selfAfterAdd` and
`argAfterAdd` are their post-states). -/
theorem conditions_add_concat {I A : Type} (a b : Conditions I A) :
    (a.add b.funcs).funcs = a.funcs ++ b.funcs
    ∧ a.selfAfterAdd b.funcs = a
    ∧ a.argAfterAdd b.funcs = b.funcs :=
  ⟨rfl, rfl, rfl⟩

/-- C3: `as_bool` returns `False` exactly when calling the chain raises
`ConditionFailed`, returns `True` exactly when every guard passes, never
re-raises `ConditionFailed`, and does not mutate the chain (and, the guards
and the evaluator being pure functions in this embedding, neither the
instance nor any field state). -/
theorem as_bool_spec {I A : Type} (c : Conditions I A) (i : I) (u : A) :
    (c.as_bool i u = Except.ok false ↔
        ∃ r, c.call i u = Except.error (PyExc.conditionFailed r))
    ∧ (c.as_bool i u = Except.ok true ↔ c.call i u = Except.ok ())
    ∧ (∀ r, c.as_bool i u ≠ Except.error (PyExc.conditionFailed r))
    ∧ c.selfAfterAsBool i u = c := by
  rcases h : c.call i u with e | v
  · cases e with
    | conditionFailed r => simp [Conditions.as_bool, h, Conditions.selfAfterAsBool]
    | other m => simp [Conditions.as_bool, h, Conditions.selfAfterAsBool]
  · cases v
    simp [Conditions.as_bool, h, Conditions.selfAfterAsBool]

/-- C4 counterexample: the source branches on Python truthiness
(`if instance:`), not on `instance is not None`; accessing the descriptor
with the falsy instance `0` (Python `bool(0)` is `False`) returns the
unbound chain itself, not a bound chain scoped to that instance as the claim
states. -/
theorem conditions_get_falsy_returns_unbound :
    (Conditions.mk [passGuard]).get natTruthy (some 0)
      = Sum.inl (Conditions.mk [passGuard])
    ∧ ∀ b : BoundConditions Nat Nat,
        (Conditions.mk [passGuard]).get natTruthy (some 0) ≠ Sum.inr b := by
  constructor
  · simp [Conditions.get, natTruthy]
  · intro b
    simp [Conditions.get, natTruthy]

/-- C4 amended: access on the class (`instance = None`) returns the unbound
chain itself; access on a *truthy* instance returns a bound chain scoped to
exactly that instance; access on a falsy instance also returns the unbound
chain. -/
theorem conditions_get_amended {I A : Type} (c : Conditions I A)
    (truthy : I → Bool) (i : I) :
    c.get truthy none = Sum.inl c
    ∧ (truthy i = true → c.get truthy (some i) = Sum.inr ⟨c, i⟩)
    ∧ (truthy i = false → c.get truthy (some i) = Sum.inl c) := by
  refine ⟨rfl, ?_, ?_⟩ <;> intro h <;> simp [Conditions.get, h]

/-- C5: a bound chain behaves exactly like its chain with the instance
pre-applied — `__call__` forwards to `self.conditions(self.instance, user)`
and `as_bool` to `self.conditions.as_bool(self.instance, user)`. -/
theorem bound_conditions_equiv {I A : Type} (c : Conditions I A) (i : I)
    (u : A) :
    (BoundConditions.mk c i).call u = c.call i u
    ∧ (BoundConditions.mk c i).as_bool u = c.as_bool i u :=
  ⟨rfl, rfl⟩

/-- C6 counterexample: `Conditions` subclasses Python `list`, so the
inherited in-place mutator `append` is part of the chain's public interface,
and it does change the predicate sequence after construction: appending to a
one-guard chain leaves the same object with two guards. -/
theorem conditions_append_mutates :
    ((Conditions.mk [passGuard]).listAppend passGuard).funcs
      ≠ (Conditions.mk [passGuard]).funcs := by
  intro h
  have hlen := congrArg List.length h
  simp [Conditions.listAppend] at hlen

/-- C6 amended: every operation the class itself defines (`+`, the
descriptor access, `__call__`, `as_bool`) leaves the chain's predicate
sequence unchanged, and concatenation yields a new chain holding the
concatenated sequence; however the chain is *not* immutable against the
mutators inherited from `list` (`append`, `+=`), which do change the
sequence in place. -/
theorem conditions_class_ops_immutable {I A : Type} (c : Conditions I A)
    (other : List (Guard I A)) (truthy : I → Bool) (obj : Option I) (i : I)
    (u : A) :
    c.selfAfterAdd other = c
    ∧ c.selfAfterCall i u = c
    ∧ c.selfAfterAsBool i u = c
    ∧ c.selfAfterGet truthy obj = c
    ∧ (c.add other).funcs = c.funcs ++ other :=
  ⟨rfl, rfl, rfl, rfl, rfl⟩

/-- C9: the empty chain always succeeds — the loop body of `__call__` runs
zero guards and raises nothing, and `as_bool` returns `True`. -/
theorem empty_chain_succeeds {I A : Type} (i : I) (u : A) :
    (Conditions.mk ([] : List (Guard I A))).call i u = Except.ok ()
    ∧ (Conditions.mk ([] : List (Guard I A))).as_bool i u = Except.ok true :=
  ⟨rfl, rfl⟩

/-- C10: `as_bool` catches only `ConditionFailed`; a guard raising any other
exception makes `as_bool` propagate that same exception instead of returning
a boolean. -/
theorem as_bool_propagates_other {I A : Type} (c : Conditions I A) (i : I)
    (u : A) (m : String)
    (h : c.call i u = Except.error (PyExc.other m)) :
    c.as_bool i u = Except.error (PyExc.other m) := by
  simp [Conditions.as_bool, h]

/-- C10 witness: a chain whose only guard raises a non-`ConditionFailed`
exception makes `as_bool` propagate it. -/
theorem as_bool_propagates_other_witness :
    (Conditions.mk [boomGuard]).as_bool 0 0 = Except.error (PyExc.other "boom") :=
  as_bool_propagates_other (Conditions.mk [boomGuard]) 0 0 "boom" rfl

end DjangoConditions

namespace FsmSpec

open DjangoConditions

/-- C7: on a protected field, a direct write outside of a transition fails
with `protectedWriteForbidden` and leaves the stored value unchanged;
reading is always permitted; and a validated transition (source accepted,
permission granted, guards passing, action succeeding) still updates the
value to the declared target state. -/
theorem protected_field_spec {S I A : Type} [DecidableEq S] (s : Slot S)
    (v : S) (d : Descr S I A) (inst : I) (actor : A)
    (hprot : s.prot = true)
    (hsrc : s.value ∈ d.source)
    (hperm : permGate d inst actor = true)
    (hcond : d.conditions.call inst actor = Except.ok ())
    (hact : d.action inst = Except.ok ()) :
    (s.directWrite v).1 = Except.error FsmError.protectedWriteForbidden
    ∧ (s.directWrite v).2 = s
    ∧ s.read = s.value
    ∧ (Slot.attempt d inst actor s).1 = Except.ok ()
    ∧ (Slot.attempt d inst actor s).2.value = d.target := by
  refine ⟨?_, ?_, rfl, ?_, ?_⟩ <;>
    simp [Slot.directWrite, hprot, Slot.attempt, Descr.attempt, hsrc, hperm,
      hcond, hact]

/-- C7 witness: the concrete protected slot at `new` refuses the direct
write of `change` and keeps `new`, while the `publish` transition moves it
to `published`. -/
theorem protected_field_spec_witness :
    (pubSlot.directWrite "change").1
        = Except.error FsmError.protectedWriteForbidden
    ∧ (pubSlot.directWrite "change").2 = pubSlot
    ∧ pubSlot.read = pubSlot.value
    ∧ (Slot.attempt pubDescr () () pubSlot).1 = Except.ok ()
    ∧ (Slot.attempt pubDescr () () pubSlot).2.value = pubDescr.target :=
  protected_field_spec pubSlot "change" pubDescr () () rfl
    (by simp [pubSlot, pubDescr]) rfl rfl rfl

/-- C8: when the action of a transition with a declared error-target state
raises, the stored value after the call equals the error-target state and
the call still reports the action's failure to the caller. -/
theorem on_error_state_spec {S I A : Type} [DecidableEq S] (d : Descr S I A)
    (inst : I) (actor : A) (st es : S) (m : String)
    (hsrc : st ∈ d.source)
    (hperm : permGate d inst actor = true)
    (hcond : d.conditions.call inst actor = Except.ok ())
    (hact : d.action inst = Except.error m)
    (herr : d.onError = some es) :
    Descr.attempt d inst actor st
      = (Except.error (FsmError.actionFailed m), es) := by
  simp [Descr.attempt, hsrc, hperm, hcond, hact, herr]

/-- C8 witness: the concrete descriptor with error-target `failed` and a
raising action moves the state from `new` to `failed` and reports the
failure. -/
theorem on_error_state_spec_witness :
    Descr.attempt failDescr () () "new"
      = (Except.error (FsmError.actionFailed "fault"), "failed") :=
  on_error_state_spec failDescr () () "new" "failed" "fault"
    (by simp [failDescr]) rfl rfl rfl rfl

end FsmSpec
